import Mathlib

/-!
Shallow embedding of the Stewart-Platform ball-balancing control software.

Source files embedded:
- `src/pid/position_feedback.py` : two-axis PID controller with anti-windup
  clamping, output saturation and an optional dead zone.
- `src/core/main.py` : orchestrator state machine (homing handshake, running
  loop with safety bound checks before dispatch).
- `src/computer_vision/ball_detection.py` : ball detector fallback policy
  (last-known-position memory versus zero position on a detection miss).

Python floats are modelled as real numbers; pixel coordinates (Python ints)
as integers.  External collaborators (camera, circle detector, geometry
solver, serial link) are parameters of the embedded functions.
-/

namespace StewartPlatform

/-! ## PID controller (`src/pid/position_feedback.py`) -/

/-- `math.radians(deg)` : degrees to radians. -/
noncomputable def radians (deg : ℝ) : ℝ := deg * Real.pi / 180

/-- `MIN_ANGLE_TO_MOVE = math.radians(0.5)` (line 5). -/
noncomputable def MIN_ANGLE_TO_MOVE : ℝ := radians 0.5

/-- `saturate(control, sat_min, sat_max) = max(min(sat_max, control), sat_min)`
(lines 8-19). -/
noncomputable def saturate (control sat_min sat_max : ℝ) : ℝ :=
  max (min sat_max control) sat_min

/-- `SAT_MAX_DEGREES = 8.25` (line 22). -/
def SAT_MAX_DEGREES : ℝ := 8.25

/-- `SAT_MIN_DEGREES = 0` (line 23). -/
def SAT_MIN_DEGREES : ℝ := 0

/-- `INTEGRAL_BOUND = 0.4` (line 25). -/
def INTEGRAL_BOUND : ℝ := 0.4

/-- `PID_Parameters` dataclass (lines 28-32). -/
structure PID_Parameters where
  kp : ℝ
  ki : ℝ
  kd : ℝ

/-- `PID_Mode` enum (lines 35-37): the two named gain presets. -/
inductive PID_Mode where
  | DisturbanceRejection
  | PathPlanning
deriving DecidableEq

/-- The `PID_Parameters` value attached to each enum member (lines 36-37). -/
def PID_Mode.value : PID_Mode → PID_Parameters
  | .DisturbanceRejection => ⟨0.80, 0.01, 0.55⟩
  | .PathPlanning => ⟨0.8, 0.1, 1.2⟩

/-- The mutable state of a `Controller` instance: previous-cycle errors and
raw integral accumulators (lines 47-50). -/
structure ControllerState where
  prev_e_x : ℝ
  prev_e_y : ℝ
  int_x : ℝ
  int_y : ℝ

/-- The immutable part of a `Controller` instance: gains resolved from the
`PID_Mode` at construction, and the two boolean options (lines 43-53). -/
structure Controller where
  kp : ℝ
  ki : ℝ
  kd : ℝ
  print_errors : Bool
  dead_zone : Bool

/-- Class attribute `dt = 0.1` (line 41). -/
def Controller.dt : ℝ := 0.1

/-- `Controller.__init__(pid_mode, print_errors, dead_zone)` (lines 43-53):
gains are read out of `pid_mode.value` once; all state starts at zero. -/
def Controller.init (pid_mode : PID_Mode) (pe dz : Bool) :
    Controller × ControllerState :=
  (⟨pid_mode.value.kp, pid_mode.value.ki, pid_mode.value.kd, pe, dz⟩,
   ⟨0, 0, 0, 0⟩)

namespace Controller

/-- `e_x = x_r - x` (line 75). -/
def e_x (desired_pos actual_pos : ℝ × ℝ) : ℝ := desired_pos.1 - actual_pos.1

/-- `e_y = y_r - y` (line 76). -/
def e_y (desired_pos actual_pos : ℝ × ℝ) : ℝ := desired_pos.2 - actual_pos.2

/-- `p_x = kp * e_x` (line 79). -/
def p_x (c : Controller) (desired_pos actual_pos : ℝ × ℝ) : ℝ :=
  c.kp * e_x desired_pos actual_pos

/-- `p_y = kp * e_y` (line 80). -/
def p_y (c : Controller) (desired_pos actual_pos : ℝ × ℝ) : ℝ :=
  c.kp * e_y desired_pos actual_pos

/-- `d_x = kd * ((e_x - prev_e_x) / dt)` (line 83). -/
noncomputable def d_x (c : Controller) (s : ControllerState)
    (desired_pos actual_pos : ℝ × ℝ) : ℝ :=
  c.kd * ((e_x desired_pos actual_pos - s.prev_e_x) / dt)

/-- `d_y = kd * ((e_y - prev_e_y) / dt)` (line 84). -/
noncomputable def d_y (c : Controller) (s : ControllerState)
    (desired_pos actual_pos : ℝ × ℝ) : ℝ :=
  c.kd * ((e_y desired_pos actual_pos - s.prev_e_y) / dt)

/-- `int_x += e_x * dt` (line 87): the updated raw accumulator. -/
def int_x (s : ControllerState) (desired_pos actual_pos : ℝ × ℝ) : ℝ :=
  s.int_x + e_x desired_pos actual_pos * dt

/-- `int_y += e_y * dt` (line 88): the updated raw accumulator. -/
def int_y (s : ControllerState) (desired_pos actual_pos : ℝ × ℝ) : ℝ :=
  s.int_y + e_y desired_pos actual_pos * dt

/-- The windup-prevention clamp applied to a scaled integral term
(lines 93-101, identical for x and y). -/
noncomputable def clampIntegral (i : ℝ) : ℝ :=
  if i > INTEGRAL_BOUND then INTEGRAL_BOUND
  else if i < -INTEGRAL_BOUND then -INTEGRAL_BOUND
  else i

/-- `i_x = ki * int_x`, then clamped (lines 89, 93-96). -/
noncomputable def i_x (c : Controller) (s : ControllerState)
    (desired_pos actual_pos : ℝ × ℝ) : ℝ :=
  clampIntegral (c.ki * int_x s desired_pos actual_pos)

/-- `i_y = ki * int_y`, then clamped (lines 90, 98-101). -/
noncomputable def i_y (c : Controller) (s : ControllerState)
    (desired_pos actual_pos : ℝ × ℝ) : ℝ :=
  clampIntegral (c.ki * int_y s desired_pos actual_pos)

/-- `u_x = p_x + d_x + i_x` (line 111). -/
noncomputable def u_x (c : Controller) (s : ControllerState)
    (desired_pos actual_pos : ℝ × ℝ) : ℝ :=
  p_x c desired_pos actual_pos + d_x c s desired_pos actual_pos +
    i_x c s desired_pos actual_pos

/-- `u_y = p_y + d_y + i_y` (line 112). -/
noncomputable def u_y (c : Controller) (s : ControllerState)
    (desired_pos actual_pos : ℝ × ℝ) : ℝ :=
  p_y c desired_pos actual_pos + d_y c s desired_pos actual_pos +
    i_y c s desired_pos actual_pos

/-- `theta_mag = math.sqrt(u_x**2 + u_y**2)` (line 115). -/
noncomputable def theta_mag (c : Controller) (s : ControllerState)
    (desired_pos actual_pos : ℝ × ℝ) : ℝ :=
  Real.sqrt (u_x c s desired_pos actual_pos ^ 2 +
    u_y c s desired_pos actual_pos ^ 2)

/-- `(dir_x, dir_y)` : unit vector components when `theta_mag != 0`, else
`(0, 0)` (lines 118-122). -/
noncomputable def dir (c : Controller) (s : ControllerState)
    (desired_pos actual_pos : ℝ × ℝ) : ℝ × ℝ :=
  if theta_mag c s desired_pos actual_pos ≠ 0 then
    (u_x c s desired_pos actual_pos / theta_mag c s desired_pos actual_pos,
     u_y c s desired_pos actual_pos / theta_mag c s desired_pos actual_pos)
  else (0, 0)

/-- `sat_theta_mag = math.radians(saturate(theta_mag, SAT_MIN_DEGREES,
SAT_MAX_DEGREES))` (line 125): the saturated magnitude before the dead-zone
suppression. -/
noncomputable def sat_theta_mag_pre (c : Controller) (s : ControllerState)
    (desired_pos actual_pos : ℝ × ℝ) : ℝ :=
  radians (saturate (theta_mag c s desired_pos actual_pos)
    SAT_MIN_DEGREES SAT_MAX_DEGREES)

/-- `if dead_zone and sat_theta_mag < MIN_ANGLE_TO_MOVE: sat_theta_mag = 0`
(lines 126-127): the returned magnitude. -/
noncomputable def sat_theta_mag (c : Controller) (s : ControllerState)
    (desired_pos actual_pos : ℝ × ℝ) : ℝ :=
  if c.dead_zone ∧ sat_theta_mag_pre c s desired_pos actual_pos <
      MIN_ANGLE_TO_MOVE then 0
  else sat_theta_mag_pre c s desired_pos actual_pos

/-- `Controller.calculate(desired_pos, actual_pos)` (lines 55-129): returns
`(dir_x, dir_y, sat_theta_mag)` together with the updated state (the
previous-error fields are overwritten with the current errors at lines
107-108, the accumulators were updated at lines 87-88). -/
noncomputable def calculate (c : Controller) (s : ControllerState)
    (desired_pos actual_pos : ℝ × ℝ) : (ℝ × ℝ × ℝ) × ControllerState :=
  (((dir c s desired_pos actual_pos).1, (dir c s desired_pos actual_pos).2,
    sat_theta_mag c s desired_pos actual_pos),
   ⟨e_x desired_pos actual_pos, e_y desired_pos actual_pos,
    int_x s desired_pos actual_pos, int_y s desired_pos actual_pos⟩)

/-- The state-transition part of one `calculate` call, used to talk about
sequences of calls. -/
noncomputable def step (c : Controller) (desired_pos actual_pos : ℝ × ℝ)
    (s : ControllerState) : ControllerState :=
  (calculate c s desired_pos actual_pos).2

end Controller

/-! ## Orchestrator (`src/core/main.py`) -/

/-- `HOMING_COMPLETED_STRING = "HOME"` (line 13). -/
def HOMING_COMPLETED_STRING : String := "HOME"

/-- `PLATFORM_TILT_MIN_RAD = 0.0` (line 15). -/
def PLATFORM_TILT_MIN_RAD : ℝ := 0.0

/-- `PLATFORM_TILT_MAX_RAD = math.pi / 12.0` (line 16). -/
noncomputable def PLATFORM_TILT_MAX_RAD : ℝ := Real.pi / 12.0

/-- `MOTOR_MIN_RAD = -math.pi / 2.0` (line 18). -/
noncomputable def MOTOR_MIN_RAD : ℝ := -Real.pi / 2.0

/-- `MOTOR_MAX_RAD = math.pi / 2.0` (line 19). -/
noncomputable def MOTOR_MAX_RAD : ℝ := Real.pi / 2.0

/-- Python `str.strip()`: drop leading and trailing whitespace characters.
A string is modelled as its list of characters. -/
def pyStrip (s : List Char) : List Char :=
  ((s.dropWhile Char.isWhitespace).reverse.dropWhile Char.isWhitespace).reverse

/-- The acceptance test of the homing loop body (line 44):
`homing_string and homing_string.decode("ascii").strip() == HOMING_COMPLETED_STRING`.
A serial read is modelled as the character list it yields (empty when the
read timed out), and Python truthiness of bytes as non-emptiness. -/
def homingAccept (homing_string : List Char) : Bool :=
  homing_string != [] &&
    pyStrip homing_string == HOMING_COMPLETED_STRING.data

/-- The `AwaitingHome` loop (lines 39-45) run over a finite prefix of the
token stream delivered by the motor serial link: `true` means the sentinel
arrived and the machine transitioned to `Running` within that prefix. -/
def awaitHome : List (List Char) → Bool
  | [] => false
  | t :: ts => if homingAccept t then true else awaitHome ts

open Classical in
/-- One `Running`-state iteration after the tilt command
`(dir_x, dir_y, theta_rad)` has been obtained (lines 64-77).  `solve` is the
external `inverse_kinematics.translate_dir_to_motor_angles`.  `some angles`
means both assertions passed and `angles` was dispatched to the motors;
`none` means an assertion failed and the process halted before dispatch. -/
noncomputable def runningStep (solve : ℝ → ℝ → ℝ → List ℝ)
    (dir_x dir_y theta_rad : ℝ) : Option (List ℝ) :=
  if PLATFORM_TILT_MIN_RAD ≤ theta_rad ∧ theta_rad ≤ PLATFORM_TILT_MAX_RAD then
    let abs_motor_angles := solve dir_x dir_y theta_rad
    if ∀ angle ∈ abs_motor_angles, MOTOR_MIN_RAD ≤ angle ∧ angle ≤ MOTOR_MAX_RAD
    then some abs_motor_angles
    else none
  else none

/-! ## Ball detector (`src/computer_vision/ball_detection.py`) -/

/-- The state of a `BallDetector` relevant to the fallback policy: the
`memory` flag and the `last_ball_position` attribute (lines 17-19, 64).
In the Python code the attribute is created at construction only when
`memory` is true (initialised to `(0.0, 0.0)`) and is otherwise first
created by a successful detection; it is never read while absent, so it is
modelled as always present. -/
structure BallDetector where
  memory : Bool
  last_ball_position : ℤ × ℤ

/-- `BallDetector.__init__` (lines 9-19), restricted to the fallback state:
with memory mode enabled `last_ball_position = (0.0, 0.0)`. -/
def BallDetector.init (memory : Bool) : BallDetector := ⟨memory, (0, 0)⟩

/-- `BallDetector._get_circle_coord_in_pixels` (lines 36-76), with the
external pieces as parameters: the acquired frame contributes its
dimensions, and the Hough-circle detector contributes `circles` — `none`
when no candidate was found, otherwise the first candidate
`(center_col, center_row, radius)` in pixels.  Returns the relative
coordinates together with the updated detector state. -/
def BallDetector.get_circle_coord_in_pixels (det : BallDetector)
    (frame_width frame_height : ℕ) (circles : Option (ℤ × ℤ × ℤ)) :
    (ℤ × ℤ) × BallDetector :=
  let center_x : ℤ := (frame_width / 2 : ℕ)
  let center_y : ℤ := (frame_height / 2 : ℕ)
  match circles with
  | some i =>
      let relative_x := center_x - i.1
      let relative_y := center_y - i.2.1
      ((relative_x, relative_y),
       { det with last_ball_position := (relative_x, relative_y) })
  | none =>
      if det.memory then (det.last_ball_position, det)
      else ((0, 0), det)

/-! ## Helper lemmas -/

lemma abs_clampIntegral_le (i : ℝ) :
    |Controller.clampIntegral i| ≤ INTEGRAL_BOUND := by
  unfold Controller.clampIntegral INTEGRAL_BOUND
  split_ifs with h1 h2 <;> rw [abs_le] <;> constructor <;> norm_num <;> linarith

lemma theta_mag_nonneg (c : Controller) (s : ControllerState)
    (d a : ℝ × ℝ) : 0 ≤ Controller.theta_mag c s d a :=
  Real.sqrt_nonneg _

lemma theta_mag_eq_zero_iff (c : Controller) (s : ControllerState)
    (d a : ℝ × ℝ) :
    Controller.theta_mag c s d a = 0 ↔
      Controller.u_x c s d a = 0 ∧ Controller.u_y c s d a = 0 := by
  unfold Controller.theta_mag
  constructor
  · intro h
    have hnn : (0:ℝ) ≤ Controller.u_x c s d a ^ 2 + Controller.u_y c s d a ^ 2 := by
      positivity
    have h0 := (Real.sqrt_eq_zero hnn).mp h
    constructor <;>
      nlinarith [sq_nonneg (Controller.u_x c s d a),
        sq_nonneg (Controller.u_y c s d a)]
  · rintro ⟨hx, hy⟩
    rw [hx, hy]
    norm_num

lemma dir_unit_of_ne (c : Controller) (s : ControllerState) (d a : ℝ × ℝ)
    (h : Controller.theta_mag c s d a ≠ 0) :
    (Controller.u_x c s d a / Controller.theta_mag c s d a) ^ 2 +
      (Controller.u_y c s d a / Controller.theta_mag c s d a) ^ 2 = 1 := by
  have hnn : (0:ℝ) ≤ Controller.u_x c s d a ^ 2 + Controller.u_y c s d a ^ 2 := by
    positivity
  have hsq : Controller.theta_mag c s d a ^ 2 =
      Controller.u_x c s d a ^ 2 + Controller.u_y c s d a ^ 2 :=
    Real.sq_sqrt hnn
  have hne : Controller.u_x c s d a ^ 2 + Controller.u_y c s d a ^ 2 ≠ 0 := by
    intro h0
    exact h (by rw [Controller.theta_mag, h0, Real.sqrt_zero])
  calc (Controller.u_x c s d a / Controller.theta_mag c s d a) ^ 2 +
        (Controller.u_y c s d a / Controller.theta_mag c s d a) ^ 2
      = (Controller.u_x c s d a ^ 2 + Controller.u_y c s d a ^ 2) /
          Controller.theta_mag c s d a ^ 2 := by ring
    _ = (Controller.u_x c s d a ^ 2 + Controller.u_y c s d a ^ 2) /
          (Controller.u_x c s d a ^ 2 + Controller.u_y c s d a ^ 2) := by
        rw [hsq]
    _ = 1 := div_self hne

lemma saturate_mem (x : ℝ) :
    0 ≤ saturate x SAT_MIN_DEGREES SAT_MAX_DEGREES ∧
      saturate x SAT_MIN_DEGREES SAT_MAX_DEGREES ≤ SAT_MAX_DEGREES := by
  unfold saturate SAT_MIN_DEGREES SAT_MAX_DEGREES
  refine ⟨le_max_right _ _, max_le (min_le_left _ _) (by norm_num)⟩

lemma radians_nonneg {deg : ℝ} (h : 0 ≤ deg) : 0 ≤ radians deg := by
  unfold radians
  have := Real.pi_pos
  positivity

lemma radians_mono {deg deg2 : ℝ} (h : deg ≤ deg2) :
    radians deg ≤ radians deg2 := by
  unfold radians
  have h2 : deg * Real.pi ≤ deg2 * Real.pi :=
    mul_le_mul_of_nonneg_right h Real.pi_pos.le
  linarith

lemma sat_theta_mag_pre_mem (c : Controller) (s : ControllerState)
    (d a : ℝ × ℝ) :
    0 ≤ Controller.sat_theta_mag_pre c s d a ∧
      Controller.sat_theta_mag_pre c s d a ≤ radians SAT_MAX_DEGREES := by
  unfold Controller.sat_theta_mag_pre
  exact ⟨radians_nonneg (saturate_mem _).1, radians_mono (saturate_mem _).2⟩

lemma sat_theta_mag_mem (c : Controller) (s : ControllerState)
    (d a : ℝ × ℝ) :
    0 ≤ Controller.sat_theta_mag c s d a ∧
      Controller.sat_theta_mag c s d a ≤ radians SAT_MAX_DEGREES := by
  unfold Controller.sat_theta_mag
  split_ifs with h
  · exact ⟨le_refl 0, radians_nonneg (by norm_num [SAT_MAX_DEGREES])⟩
  · exact sat_theta_mag_pre_mem c s d a

/-! ## Claim theorems -/

/-- C2: on every call, in any controller state, the contribution of the
integral term to the control signal on each axis is the clamped scaled term
and never exceeds `INTEGRAL_BOUND = 0.4` in absolute value, while the raw
accumulator is updated by `error * dt` unconditionally, so after `n` calls
with a constant error it has grown by `n * error * dt`. -/
theorem integral_term_contribution_clamped (c : Controller)
    (s : ControllerState) (d a : ℝ × ℝ) :
    |Controller.i_x c s d a| ≤ INTEGRAL_BOUND ∧
    |Controller.i_y c s d a| ≤ INTEGRAL_BOUND ∧
    Controller.u_x c s d a =
      Controller.p_x c d a + Controller.d_x c s d a +
        Controller.i_x c s d a ∧
    Controller.u_y c s d a =
      Controller.p_y c d a + Controller.d_y c s d a +
        Controller.i_y c s d a ∧
    (Controller.calculate c s d a).2.int_x =
      s.int_x + Controller.e_x d a * Controller.dt ∧
    (Controller.calculate c s d a).2.int_y =
      s.int_y + Controller.e_y d a * Controller.dt ∧
    (∀ n : ℕ, ((Controller.step c d a)^[n] s).int_x =
      s.int_x + n * (Controller.e_x d a * Controller.dt)) := by
  refine ⟨abs_clampIntegral_le _, abs_clampIntegral_le _, rfl, rfl, rfl, rfl,
    fun n => ?_⟩
  induction n with
  | zero => simp
  | succ k ih =>
      rw [Function.iterate_succ_apply']
      show ((Controller.step c d a) _).int_x = _
      rw [Controller.step]
      show Controller.int_x _ d a = _
      rw [Controller.int_x, ih]
      push_cast
      ring

/-- C3: for all inputs and any state, the returned direction is a unit
vector, or exactly `(0, 0)` precisely when the pre-saturation magnitude is
zero, and the returned tilt magnitude lies in `[0, radians SAT_MAX_DEGREES]`. -/
theorem tilt_command_direction_unit_and_magnitude_bounded (c : Controller)
    (s : ControllerState) (d a : ℝ × ℝ) :
    ((Controller.dir c s d a).1 ^ 2 + (Controller.dir c s d a).2 ^ 2 = 1 ∨
      Controller.dir c s d a = (0, 0)) ∧
    (Controller.dir c s d a = (0, 0) ↔ Controller.theta_mag c s d a = 0) ∧
    0 ≤ Controller.sat_theta_mag c s d a ∧
    Controller.sat_theta_mag c s d a ≤ radians SAT_MAX_DEGREES := by
  refine ⟨?_, ⟨?_, ?_⟩, (sat_theta_mag_mem c s d a).1,
    (sat_theta_mag_mem c s d a).2⟩
  · by_cases h : Controller.theta_mag c s d a = 0
    · right
      rw [Controller.dir, if_neg (by simpa using h)]
    · left
      rw [Controller.dir, if_pos h]
      exact dir_unit_of_ne c s d a h
  · intro h0
    by_cases hm : Controller.theta_mag c s d a = 0
    · exact hm
    · exfalso
      rw [Controller.dir, if_pos hm, Prod.ext_iff] at h0
      have hx : Controller.u_x c s d a = 0 := by
        rcases div_eq_zero_iff.mp h0.1 with h | h
        · exact h
        · exact absurd h hm
      have hy : Controller.u_y c s d a = 0 := by
        rcases div_eq_zero_iff.mp h0.2 with h | h
        · exact h
        · exact absurd h hm
      exact hm ((theta_mag_eq_zero_iff c s d a).mpr ⟨hx, hy⟩)
  · intro h
    rw [Controller.dir, if_neg (by simpa using h)]

/-- C5: with the dead zone enabled, whenever the saturated magnitude before
suppression is below `MIN_ANGLE_TO_MOVE`, the returned magnitude is exactly
zero, the direction components are returned as computed, and the stored
previous error is still updated to the current error. -/
theorem dead_zone_zeroes_small_magnitudes (c : Controller)
    (s : ControllerState) (d a : ℝ × ℝ) (hdz : c.dead_zone = true)
    (h : Controller.sat_theta_mag_pre c s d a < MIN_ANGLE_TO_MOVE) :
    (Controller.calculate c s d a).1.2.2 = 0 ∧
    (Controller.calculate c s d a).1.1 = (Controller.dir c s d a).1 ∧
    (Controller.calculate c s d a).1.2.1 = (Controller.dir c s d a).2 ∧
    (Controller.calculate c s d a).2.prev_e_x = Controller.e_x d a ∧
    (Controller.calculate c s d a).2.prev_e_y = Controller.e_y d a := by
  refine ⟨?_, rfl, rfl, rfl, rfl⟩
  show Controller.sat_theta_mag c s d a = 0
  rw [Controller.sat_theta_mag, if_pos ⟨by simp [hdz], h⟩]

/-- C5 witness: a concrete suppressed cycle — controller in `PathPlanning`
mode with the dead zone on, zero state, coincident desired and actual
positions. -/
theorem dead_zone_zeroes_small_magnitudes_witness :
    (Controller.calculate (Controller.init PID_Mode.PathPlanning false true).1
      (Controller.init PID_Mode.PathPlanning false true).2
      (0, 0) (0, 0)).1.2.2 = 0 := by
  have hpre : Controller.sat_theta_mag_pre
      (Controller.init PID_Mode.PathPlanning false true).1
      (Controller.init PID_Mode.PathPlanning false true).2 (0, 0) (0, 0) = 0 := by
    have hu : Controller.u_x (Controller.init PID_Mode.PathPlanning false true).1
        (Controller.init PID_Mode.PathPlanning false true).2 (0, 0) (0, 0) = 0 ∧
        Controller.u_y (Controller.init PID_Mode.PathPlanning false true).1
        (Controller.init PID_Mode.PathPlanning false true).2 (0, 0) (0, 0) = 0 := by
      constructor <;>
        simp [Controller.u_x, Controller.u_y, Controller.p_x, Controller.p_y,
          Controller.d_x, Controller.d_y, Controller.i_x, Controller.i_y,
          Controller.int_x, Controller.int_y, Controller.e_x, Controller.e_y,
          Controller.clampIntegral, Controller.init, PID_Mode.value,
          INTEGRAL_BOUND] <;> norm_num
    rw [Controller.sat_theta_mag_pre, Controller.theta_mag, hu.1, hu.2]
    rw [show ((0:ℝ)^2 + 0^2) = 0 by norm_num, Real.sqrt_zero]
    rw [show saturate 0 SAT_MIN_DEGREES SAT_MAX_DEGREES = 0 by
      unfold saturate SAT_MIN_DEGREES SAT_MAX_DEGREES; norm_num]
    unfold radians
    ring
  exact (dead_zone_zeroes_small_magnitudes _ _ _ _ rfl
    (by rw [hpre]; unfold MIN_ANGLE_TO_MOVE radians;
        have := Real.pi_pos; norm_num; positivity)).1

/-- C8 counterexample: the preset named for disturbance rejection does not
have the higher proportional or derivative weight — its proportional gain
equals that of the smooth-convergence preset and its derivative gain is
strictly smaller. -/
theorem gain_presets_claim_counterexample :
    (PID_Mode.value PID_Mode.DisturbanceRejection).kp =
      (PID_Mode.value PID_Mode.PathPlanning).kp ∧
    (PID_Mode.value PID_Mode.DisturbanceRejection).kd <
      (PID_Mode.value PID_Mode.PathPlanning).kd ∧
    ¬ ((PID_Mode.value PID_Mode.DisturbanceRejection).kp >
        (PID_Mode.value PID_Mode.PathPlanning).kp ∨
      (PID_Mode.value PID_Mode.DisturbanceRejection).kd >
        (PID_Mode.value PID_Mode.PathPlanning).kd) := by
  norm_num [PID_Mode.value]

/-- C8 amended: the controller supports exactly the two named immutable
presets, resolved once at construction into the gain fields; the
smooth-convergence preset (`PathPlanning`) has the higher integral weight,
but also the higher derivative weight, and the proportional weights are
equal. -/
theorem gain_presets_two_presets_resolved (m : PID_Mode) (pe dz : Bool) :
    PID_Mode.DisturbanceRejection ≠ PID_Mode.PathPlanning ∧
    (Controller.init m pe dz).1.kp = (PID_Mode.value m).kp ∧
    (Controller.init m pe dz).1.ki = (PID_Mode.value m).ki ∧
    (Controller.init m pe dz).1.kd = (PID_Mode.value m).kd ∧
    (PID_Mode.value PID_Mode.PathPlanning).ki >
      (PID_Mode.value PID_Mode.DisturbanceRejection).ki ∧
    (PID_Mode.value PID_Mode.PathPlanning).kd >
      (PID_Mode.value PID_Mode.DisturbanceRejection).kd ∧
    (PID_Mode.value PID_Mode.PathPlanning).kp =
      (PID_Mode.value PID_Mode.DisturbanceRejection).kp := by
  refine ⟨by decide, rfl, rfl, rfl, ?_, ?_, ?_⟩ <;> norm_num [PID_Mode.value]

lemma homingAccept_iff (t : List Char) :
    homingAccept t = true ↔ pyStrip t = HOMING_COMPLETED_STRING.data := by
  unfold homingAccept
  rw [Bool.and_eq_true, bne_iff_ne, beq_iff_eq]
  constructor
  · exact fun h => h.2
  · intro h
    refine ⟨?_, h⟩
    intro he
    rw [he] at h
    exact absurd h (by decide)

/-- C1: one `Running` iteration dispatches the solver output exactly when
the tilt magnitude lies in `[0, pi/12]` and every solver-produced angle lies
in `[-pi/2, pi/2]`; an angle of exactly `pi/2` satisfies the per-angle
bound, while `pi/2 + eps` for any positive `eps` makes the iteration halt
before dispatch. -/
theorem running_step_halts_outside_bounds (solve : ℝ → ℝ → ℝ → List ℝ)
    (dir_x dir_y theta_rad : ℝ) :
    (runningStep solve dir_x dir_y theta_rad =
        some (solve dir_x dir_y theta_rad) ↔
      (PLATFORM_TILT_MIN_RAD ≤ theta_rad ∧
        theta_rad ≤ PLATFORM_TILT_MAX_RAD ∧
        ∀ angle ∈ solve dir_x dir_y theta_rad,
          MOTOR_MIN_RAD ≤ angle ∧ angle ≤ MOTOR_MAX_RAD)) ∧
    (MOTOR_MIN_RAD ≤ Real.pi / 2 ∧ Real.pi / 2 ≤ MOTOR_MAX_RAD) ∧
    (∀ ε : ℝ, 0 < ε → (Real.pi / 2 + ε) ∈ solve dir_x dir_y theta_rad →
      runningStep solve dir_x dir_y theta_rad = none) := by
  have hp := Real.pi_pos
  have hpass : MOTOR_MIN_RAD ≤ Real.pi / 2 ∧ Real.pi / 2 ≤ MOTOR_MAX_RAD := by
    unfold MOTOR_MIN_RAD MOTOR_MAX_RAD
    constructor <;> linarith
  refine ⟨?_, hpass, ?_⟩
  · simp only [runningStep]
    split_ifs with h1 h2
    · exact iff_of_true rfl ⟨h1.1, h1.2, h2⟩
    · constructor
      · intro h; exact absurd h (by simp)
      · rintro ⟨-, -, h⟩; exact absurd h h2
    · constructor
      · intro h; exact absurd h (by simp)
      · rintro ⟨ha, hb, -⟩; exact absurd ⟨ha, hb⟩ h1
  · intro ε hε hmem
    simp only [runningStep]
    split_ifs with h1 h2
    · exfalso
      have h3 := (h2 _ hmem).2
      rw [MOTOR_MAX_RAD] at h3
      linarith
    · rfl
    · rfl

/-- C1 witness: a solver returning the single angle `pi/2 + 1` makes the
iteration halt even at a legal tilt of `0`. -/
theorem running_step_halts_outside_bounds_witness :
    runningStep (fun _ _ _ => [Real.pi / 2 + 1]) 0 0 0 = none :=
  (running_step_halts_outside_bounds (fun _ _ _ => [Real.pi / 2 + 1]) 0 0 0).2.2
    1 one_pos (by simp)

/-- C7: the `AwaitingHome` loop transitions to `Running` exactly when some
read token, after stripping surrounding whitespace, equals the sentinel
`"HOME"`; over a stream containing no such token, no finite number of reads
ever completes the handshake. -/
theorem awaiting_home_sentinel :
    (∀ toks : List (List Char), awaitHome toks = true ↔
      ∃ t ∈ toks, pyStrip t = HOMING_COMPLETED_STRING.data) ∧
    (∀ f : ℕ → List Char,
      (∀ i, pyStrip (f i) ≠ HOMING_COMPLETED_STRING.data) →
      ∀ n, awaitHome ((List.range n).map f) = false) := by
  have hiff : ∀ toks : List (List Char), awaitHome toks = true ↔
      ∃ t ∈ toks, pyStrip t = HOMING_COMPLETED_STRING.data := by
    intro toks
    induction toks with
    | nil => simp [awaitHome]
    | cons t ts ih =>
        rw [awaitHome]
        by_cases h : homingAccept t = true
        · rw [if_pos h]
          exact iff_of_true rfl
            ⟨t, List.mem_cons_self t ts, (homingAccept_iff t).mp h⟩
        · rw [if_neg h, ih]
          constructor
          · rintro ⟨u, hu, hs⟩
            exact ⟨u, List.mem_cons_of_mem _ hu, hs⟩
          · rintro ⟨u, hu, hs⟩
            rcases List.mem_cons.mp hu with rfl | hu2
            · exact absurd ((homingAccept_iff u).mpr hs) h
            · exact ⟨u, hu2, hs⟩
  refine ⟨hiff, ?_⟩
  intro f hf n
  cases hA : awaitHome ((List.range n).map f) with
  | false => rfl
  | true =>
      exfalso
      obtain ⟨t, ht, hs⟩ := (hiff _).mp hA
      obtain ⟨i, -, rfl⟩ := List.mem_map.mp ht
      exact hf i hs

/-- C7 witness: a whitespace-padded sentinel completes the handshake; a
stream of unrelated tokens never does. -/
theorem awaiting_home_sentinel_witness :
    awaitHome [" HOME ".data] = true ∧
    awaitHome ((List.range 2).map fun _ => ['X']) = false := by
  constructor
  · exact (awaiting_home_sentinel.1 [" HOME ".data]).mpr
      ⟨" HOME ".data, by simp, by decide⟩
  · refine awaiting_home_sentinel.2 (fun _ => ['X']) (fun i => ?_) 2
    show pyStrip ['X'] ≠ HOMING_COMPLETED_STRING.data
    decide

/-- C6: on a detection miss, memory mode returns the stored last-known
position unchanged while memory-off mode returns `(0, 0)`; every successful
detection overwrites the stored position with the newly computed relative
coordinates (and the returned value is exactly those coordinates). -/
theorem detection_miss_fallback_policy (det : BallDetector) (w h : ℕ) :
    (det.memory = true →
      det.get_circle_coord_in_pixels w h none =
        (det.last_ball_position, det)) ∧
    (det.memory = false →
      det.get_circle_coord_in_pixels w h none = ((0, 0), det)) ∧
    (∀ i : ℤ × ℤ × ℤ,
      (det.get_circle_coord_in_pixels w h (some i)).1 =
        (((w / 2 : ℕ) : ℤ) - i.1, ((h / 2 : ℕ) : ℤ) - i.2.1) ∧
      (det.get_circle_coord_in_pixels w h (some i)).2.last_ball_position =
        (det.get_circle_coord_in_pixels w h (some i)).1 ∧
      (det.get_circle_coord_in_pixels w h (some i)).2.memory = det.memory) := by
  unfold BallDetector.get_circle_coord_in_pixels
  exact ⟨fun hm => by simp [hm], fun hm => by simp [hm],
    fun i => ⟨rfl, rfl, rfl⟩⟩

/-- C6 witness: a concrete detector state with a remembered position
`(3, 4)`, on a missed frame, with memory on and off. -/
theorem detection_miss_fallback_policy_witness :
    (BallDetector.mk true (3, 4)).get_circle_coord_in_pixels 480 480 none =
      ((3, 4), BallDetector.mk true (3, 4)) ∧
    (BallDetector.mk false (3, 4)).get_circle_coord_in_pixels 480 480 none =
      ((0, 0), BallDetector.mk false (3, 4)) :=
  ⟨(detection_miss_fallback_policy (BallDetector.mk true (3, 4)) 480 480).1
      rfl,
    (detection_miss_fallback_policy (BallDetector.mk false (3, 4)) 480 480).2.1
      rfl⟩

/-- C10: with memory mode enabled the stored position already exists at
construction, initialised to the origin, so a miss before any successful
detection returns `(0, 0)` — the same value a memory-disabled detector
returns on a miss. -/
theorem memory_initialized_to_origin (w h : ℕ) :
    (BallDetector.init true).last_ball_position = (0, 0) ∧
    (BallDetector.init true).get_circle_coord_in_pixels w h none =
      ((0, 0), BallDetector.init true) ∧
    ((BallDetector.init true).get_circle_coord_in_pixels w h none).1 =
      ((BallDetector.init false).get_circle_coord_in_pixels w h none).1 := by
  refine ⟨rfl, ?_, ?_⟩ <;>
    simp [BallDetector.init, BallDetector.get_circle_coord_in_pixels]

open Classical in
/-- C9: every magnitude the controller can return is at most
`radians SAT_MAX_DEGREES`, which is strictly below `pi/12`, so the
plate-tilt assertion of the `Running` iteration holds on every
controller-produced command and the iteration outcome is decided by the
motor-angle check alone. -/
theorem controller_tilt_never_fails_platform_check (c : Controller)
    (s : ControllerState) (d a : ℝ × ℝ) (solve : ℝ → ℝ → ℝ → List ℝ)
    (dir_x dir_y : ℝ) :
    Controller.sat_theta_mag c s d a ≤ radians SAT_MAX_DEGREES ∧
    radians SAT_MAX_DEGREES < PLATFORM_TILT_MAX_RAD ∧
    PLATFORM_TILT_MIN_RAD ≤ Controller.sat_theta_mag c s d a ∧
    Controller.sat_theta_mag c s d a ≤ PLATFORM_TILT_MAX_RAD ∧
    runningStep solve dir_x dir_y (Controller.sat_theta_mag c s d a) =
      if ∀ angle ∈ solve dir_x dir_y (Controller.sat_theta_mag c s d a),
          MOTOR_MIN_RAD ≤ angle ∧ angle ≤ MOTOR_MAX_RAD
      then some (solve dir_x dir_y (Controller.sat_theta_mag c s d a))
      else none := by
  have hp := Real.pi_pos
  have hmax : radians SAT_MAX_DEGREES < PLATFORM_TILT_MAX_RAD := by
    unfold radians SAT_MAX_DEGREES PLATFORM_TILT_MAX_RAD
    linarith
  have h0 := (sat_theta_mag_mem c s d a).1
  have h1 := (sat_theta_mag_mem c s d a).2
  have hmin : PLATFORM_TILT_MIN_RAD ≤ Controller.sat_theta_mag c s d a := by
    unfold PLATFORM_TILT_MIN_RAD
    linarith
  refine ⟨h1, hmax, hmin, by linarith, ?_⟩
  rw [runningStep, if_pos ⟨hmin, by linarith⟩]

/-- C4: single `calculate` call in `PathPlanning` mode from the zero state
with desired `(0, 0)` and actual `(1, 0)`: error `(-1, 0)`, proportional
`-0.8`, derivative `-12`, raw integral `-0.1`, scaled integral `-0.01`
(inside the clamp), control signal `-12.81`, magnitude `12.81` saturating
to `8.25` degrees, direction `(-1, 0)`, returned tilt
`radians SAT_MAX_DEGREES`, numerically in `[0.1439, 0.1440]`. -/
theorem pid_path_planning_single_step_scenario :
    Controller.e_x ((0:ℝ), (0:ℝ)) ((1:ℝ), (0:ℝ)) = -1 ∧
    Controller.e_y ((0:ℝ), (0:ℝ)) ((1:ℝ), (0:ℝ)) = 0 ∧
    Controller.p_x (Controller.init PID_Mode.PathPlanning false false).1
      ((0:ℝ), (0:ℝ)) ((1:ℝ), (0:ℝ)) = -0.8 ∧
    Controller.d_x (Controller.init PID_Mode.PathPlanning false false).1
      (Controller.init PID_Mode.PathPlanning false false).2
      ((0:ℝ), (0:ℝ)) ((1:ℝ), (0:ℝ)) = -12 ∧
    Controller.int_x (Controller.init PID_Mode.PathPlanning false false).2
      ((0:ℝ), (0:ℝ)) ((1:ℝ), (0:ℝ)) = -0.1 ∧
    Controller.i_x (Controller.init PID_Mode.PathPlanning false false).1
      (Controller.init PID_Mode.PathPlanning false false).2
      ((0:ℝ), (0:ℝ)) ((1:ℝ), (0:ℝ)) = -0.01 ∧
    Controller.u_x (Controller.init PID_Mode.PathPlanning false false).1
      (Controller.init PID_Mode.PathPlanning false false).2
      ((0:ℝ), (0:ℝ)) ((1:ℝ), (0:ℝ)) = -12.81 ∧
    Controller.u_y (Controller.init PID_Mode.PathPlanning false false).1
      (Controller.init PID_Mode.PathPlanning false false).2
      ((0:ℝ), (0:ℝ)) ((1:ℝ), (0:ℝ)) = 0 ∧
    Controller.theta_mag (Controller.init PID_Mode.PathPlanning false false).1
      (Controller.init PID_Mode.PathPlanning false false).2
      ((0:ℝ), (0:ℝ)) ((1:ℝ), (0:ℝ)) = 12.81 ∧
    Controller.dir (Controller.init PID_Mode.PathPlanning false false).1
      (Controller.init PID_Mode.PathPlanning false false).2
      ((0:ℝ), (0:ℝ)) ((1:ℝ), (0:ℝ)) = (-1, 0) ∧
    Controller.sat_theta_mag
      (Controller.init PID_Mode.PathPlanning false false).1
      (Controller.init PID_Mode.PathPlanning false false).2
      ((0:ℝ), (0:ℝ)) ((1:ℝ), (0:ℝ)) = radians SAT_MAX_DEGREES ∧
    0.1439 ≤ radians SAT_MAX_DEGREES ∧ radians SAT_MAX_DEGREES ≤ 0.1440 := by
  have he : Controller.e_x ((0:ℝ), (0:ℝ)) ((1:ℝ), (0:ℝ)) = -1 := by
    norm_num [Controller.e_x]
  have hey : Controller.e_y ((0:ℝ), (0:ℝ)) ((1:ℝ), (0:ℝ)) = 0 := by
    norm_num [Controller.e_y]
  have hp : Controller.p_x (Controller.init PID_Mode.PathPlanning false false).1
      ((0:ℝ), (0:ℝ)) ((1:ℝ), (0:ℝ)) = -0.8 := by
    norm_num [Controller.p_x, Controller.e_x, Controller.init, PID_Mode.value]
  have hd : Controller.d_x (Controller.init PID_Mode.PathPlanning false false).1
      (Controller.init PID_Mode.PathPlanning false false).2
      ((0:ℝ), (0:ℝ)) ((1:ℝ), (0:ℝ)) = -12 := by
    norm_num [Controller.d_x, Controller.e_x, Controller.dt, Controller.init,
      PID_Mode.value]
  have hint : Controller.int_x
      (Controller.init PID_Mode.PathPlanning false false).2
      ((0:ℝ), (0:ℝ)) ((1:ℝ), (0:ℝ)) = -0.1 := by
    norm_num [Controller.int_x, Controller.e_x, Controller.dt,
      Controller.init]
  have hi : Controller.i_x (Controller.init PID_Mode.PathPlanning false false).1
      (Controller.init PID_Mode.PathPlanning false false).2
      ((0:ℝ), (0:ℝ)) ((1:ℝ), (0:ℝ)) = -0.01 := by
    rw [Controller.i_x, hint]
    norm_num [Controller.clampIntegral, INTEGRAL_BOUND, Controller.init,
      PID_Mode.value]
  have hu : Controller.u_x (Controller.init PID_Mode.PathPlanning false false).1
      (Controller.init PID_Mode.PathPlanning false false).2
      ((0:ℝ), (0:ℝ)) ((1:ℝ), (0:ℝ)) = -12.81 := by
    rw [Controller.u_x, hp, hd, hi]
    norm_num
  have huy : Controller.u_y
      (Controller.init PID_Mode.PathPlanning false false).1
      (Controller.init PID_Mode.PathPlanning false false).2
      ((0:ℝ), (0:ℝ)) ((1:ℝ), (0:ℝ)) = 0 := by
    norm_num [Controller.u_y, Controller.p_y, Controller.d_y, Controller.i_y,
      Controller.int_y, Controller.e_y, Controller.clampIntegral,
      INTEGRAL_BOUND, Controller.dt, Controller.init, PID_Mode.value]
  have hm : Controller.theta_mag
      (Controller.init PID_Mode.PathPlanning false false).1
      (Controller.init PID_Mode.PathPlanning false false).2
      ((0:ℝ), (0:ℝ)) ((1:ℝ), (0:ℝ)) = 12.81 := by
    rw [Controller.theta_mag, hu, huy]
    rw [show ((-12.81:ℝ)^2 + 0^2) = (12.81:ℝ)^2 by norm_num]
    exact Real.sqrt_sq (by norm_num)
  have hdir : Controller.dir
      (Controller.init PID_Mode.PathPlanning false false).1
      (Controller.init PID_Mode.PathPlanning false false).2
      ((0:ℝ), (0:ℝ)) ((1:ℝ), (0:ℝ)) = (-1, 0) := by
    rw [Controller.dir, if_pos (by rw [hm]; norm_num), hu, huy, hm]
    norm_num [Prod.ext_iff]
  have hsat : Controller.sat_theta_mag
      (Controller.init PID_Mode.PathPlanning false false).1
      (Controller.init PID_Mode.PathPlanning false false).2
      ((0:ℝ), (0:ℝ)) ((1:ℝ), (0:ℝ)) = radians SAT_MAX_DEGREES := by
    rw [Controller.sat_theta_mag,
      if_neg (by simp [Controller.init]), Controller.sat_theta_mag_pre, hm]
    rw [show saturate 12.81 SAT_MIN_DEGREES SAT_MAX_DEGREES = SAT_MAX_DEGREES
      from by
        unfold saturate SAT_MIN_DEGREES SAT_MAX_DEGREES
        rw [min_eq_left (by norm_num), max_eq_left (by norm_num)]]
  have hlo : (0.1439:ℝ) ≤ radians SAT_MAX_DEGREES := by
    unfold radians SAT_MAX_DEGREES
    have := Real.pi_gt_d6
    linarith
  have hhi : radians SAT_MAX_DEGREES ≤ (0.1440:ℝ) := by
    unfold radians SAT_MAX_DEGREES
    have := Real.pi_lt_d6
    linarith
  exact ⟨he, hey, hp, hd, hint, hi, hu, huy, hm, hdir, hsat, hlo, hhi⟩

end StewartPlatform
